import Mathlib

/-!
Verification of the SEC company-search and industry-classification tool
(`crazier.py`, class `CompleteSECCompanySearch`) against its specification.

The Python source is shallowly embedded: every network call is abstracted as
an oracle argument (`none` models a request that raised or returned no data,
mirroring `_make_request`, which catches `RequestException` and returns
`None`), dictionaries with a fixed key set become structures, optional or
possibly-missing keys become `Option`, and Python truthiness on optional
string values is made explicit (`truthy`).  String primitives are modelled
over `String.data` (the character list), which matches Python `str`
semantics (`len`, slicing, `in`, `.lower()` on the ASCII inputs involved).
-/

namespace Crazier

set_option maxRecDepth 8000

/-- Python truthiness of an optional string value: `None` and `""` are falsy,
every other string is truthy. -/
def truthy : Option String → Bool
  | none => false
  | some s => s ≠ ""

/-- Substring test, modelling Python's `needle in haystack`. -/
def strContains (needle haystack : String) : Bool :=
  haystack.data.tails.any (fun t => needle.data.isPrefixOf t)

/-- ASCII lower-casing, modelling `str.lower()` on the ASCII data this tool
handles (titles, tickers, keywords). -/
def strLower (s : String) : String :=
  String.mk (s.data.map Char.toLower)

/-- Decimal parse of a digit string, modelling `int(s)` on the identifier
strings this tool handles; `none` models the `ValueError` raised on a
non-numeric input. -/
def strToNat? (s : String) : Option Nat :=
  if s.data ≠ [] ∧ s.data.all Char.isDigit then
    some (s.data.foldl (fun n c => n * 10 + (c.toNat - 48)) 0)
  else none

/-- Suffix test, modelling Python's `str.endswith`. -/
def strEndsWith (s suffix : String) : Bool :=
  List.isSuffixOf suffix.data s.data

/-- Left zero-padding, modelling `str.zfill(w)` on the digit strings this
tool handles. -/
def zfill (s : String) (w : Nat) : String :=
  if w ≤ s.length then s else String.mk (List.replicate (w - s.length) '0') ++ s

/-- Result record of `parse_form_d_filing` (the `industry_info` dict built
there): four optional fields. -/
structure FormDInfo where
  industry_category : Option String
  business_description : Option String
  revenue_range : Option String
  offering_amount : Option String
deriving DecidableEq, Repr

/-- An HTTP response as consumed by `parse_form_d_filing`: a status code and
the body text. -/
structure HttpResponse where
  status : Nat
  text : String
deriving DecidableEq, Repr

/-- One entry of the `company_tickers.json` directory consumed by
`search_public_companies`: `cik_str` (numeric in the served JSON), `title`
and `ticker`. -/
structure DirEntry where
  cik_str : Nat
  title : String
  ticker : String
deriving DecidableEq, Repr

/-- The `filings.recent` object of a submissions response: the parallel
`form` and `accessionNumber` arrays. -/
structure Filings where
  form : List String
  accessionNumber : List String
deriving DecidableEq, Repr

/-- A submissions-API response as consumed by the tool: `name`, `tickers`,
`sic`, `businessDescription` and the recent filings.  `none` on an `Option`
field models an absent key; `tickers := []` models an absent or empty
ticker array (both are falsy in the source's checks). -/
structure SubmissionsData where
  name : Option String
  tickers : List String
  sic : Option String
  businessDescription : Option String
  filings : Option Filings
deriving DecidableEq, Repr

/-- A submissions response after `get_enhanced_submissions_data` possibly
attached a `form_d_info` key; this is the input of
`extract_comprehensive_industry_info`. -/
structure EnhancedData where
  name : Option String
  tickers : List String
  sic : Option String
  businessDescription : Option String
  filings : Option Filings
  form_d_info : Option FormDInfo
deriving DecidableEq, Repr

/-- A candidate entry as built by `search_public_companies` and
`search_by_cik_direct` (the fields `comprehensive_company_search` reads). -/
structure Candidate where
  cik : String
  name : String
  ticker : String
  company_type : String
deriving DecidableEq, Repr

/-- The `industry_info` dict built by `extract_comprehensive_industry_info`.
`confidence` is only added when the name-classification fallback fires
(`dict.update` with the fallback's result). -/
structure IndustryInfo where
  sic_code : Option String
  sic_description : Option String
  business_description : Option String
  industry_category : Option String
  company_type : Option String
  form_d_info : Option FormDInfo
  source : String
  confidence : Option String
deriving DecidableEq, Repr

/-- The result dict of `classify_industry_from_name`. -/
structure NameClassification where
  industry_category : String
  confidence : String
deriving DecidableEq, Repr

/-- One aggregated result record of `comprehensive_company_search`. -/
structure AggResult where
  cik : String
  name : String
  ticker : String
  company_type : String
  sic_code : Option String
  sic_description : Option String
  business_description : Option String
  industry_category : Option String
  form_d_info : Option FormDInfo
  data_source : String
  filing_count : Nat
deriving DecidableEq, Repr

/-- The static SIC code to description table (`self.sic_mapping`). -/
def sic_mapping : List (String × String) :=
  [("5812", "Eating Places/Restaurants"),
   ("7372", "Prepackaged Software"),
   ("3571", "Electronic Computers"),
   ("7373", "Computer Integrated Systems Design"),
   ("3674", "Semiconductors & Related Devices"),
   ("6211", "Security Brokers & Dealers"),
   ("2834", "Pharmaceutical Preparations"),
   ("3711", "Motor Vehicles & Car Bodies"),
   ("4813", "Telephone Communications"),
   ("1311", "Crude Petroleum & Natural Gas"),
   ("2911", "Petroleum Refining"),
   ("5961", "Catalog & Mail-Order Houses"),
   ("7370", "Computer Programming & Data Processing"),
   ("8742", "Management Consulting Services"),
   ("2080", "Beverages"),
   ("3577", "Computer Peripheral Equipment"),
   ("6141", "Personal Credit Institutions"),
   ("4899", "Communications Services"),
   ("7371", "Computer Programming Services"),
   ("7389", "Business Services, NEC")]

/-- The static Form D industry table (`self.form_d_industries`); defined in
the source's constructor but never read by any method. -/
def form_d_industries : List (String × String) :=
  [("Agriculture", "Agriculture"),
   ("Banking & Financial Services", "Financial Services"),
   ("Business Services", "Business Services"),
   ("Energy", "Energy"),
   ("Health Care", "Healthcare"),
   ("Manufacturing", "Manufacturing"),
   ("Real Estate", "Real Estate"),
   ("Retailing", "Retail"),
   ("Restaurants", "Food & Restaurants"),
   ("Technology", "Technology"),
   ("Travel", "Travel & Tourism")]

/-- The static category to keyword-list table of
`classify_industry_from_name`, in the source's (insertion) iteration
order. -/
def industry_keywords : List (String × List String) :=
  [("Technology",
    ["software", "tech", "systems", "data", "cloud", "cyber", "digital",
     "computer", "platform", "analytics", "ai", "artificial intelligence",
     "app", "mobile", "web", "internet", "online"]),
   ("Financial Services",
    ["bank", "financial", "capital", "investment", "fund", "credit",
     "loan", "mortgage", "insurance", "securities", "finance"]),
   ("Healthcare",
    ["pharma", "medical", "health", "bio", "therapeutic", "clinical",
     "hospital", "drug", "medicine", "healthcare"]),
   ("Retail",
    ["retail", "store", "shop", "market", "grocery", "consumer", "commerce"]),
   ("Energy",
    ["energy", "oil", "gas", "petroleum", "solar", "wind", "utility",
     "electric", "power", "renewable"]),
   ("Manufacturing",
    ["manufacturing", "industrial", "auto", "motor", "machinery",
     "equipment", "materials", "production"]),
   ("Food & Beverage",
    ["food", "restaurant", "coffee", "beverage", "dining", "kitchen",
     "cafe", "bar", "brewery", "wine"]),
   ("Real Estate",
    ["real estate", "property", "construction", "building", "development"]),
   ("Transportation",
    ["transport", "logistics", "shipping", "delivery", "freight"]),
   ("Media",
    ["media", "entertainment", "publishing", "content", "broadcast", "film"])]

/-- Embedding of `classify_industry_from_name`: scan the keyword table in
order, first category with a substring match in the lower-cased name wins
with confidence `medium`; otherwise `Unknown` with confidence `low`. -/
def classify_industry_from_name (company_name : String) : NameClassification :=
  let name_lower := strLower company_name
  match industry_keywords.find? (fun p => p.2.any (fun kw => strContains kw name_lower)) with
  | some p => { industry_category := p.1, confidence := "medium" }
  | none => { industry_category := "Unknown", confidence := "low" }

/-- The company-type rule both the profile fetch and the classifier use:
`public` iff the tickers list is truthy (non-empty), else `private`. -/
def profile_company_type (tickers : List String) : String :=
  if tickers ≠ [] then "public" else "private"

/-- Description lookup of the SIC block: the table entry for the code, or a
synthesized `SIC <code>` string when the code is not in the table. -/
def sic_description_of (v : String) : String :=
  (sic_mapping.lookup v).getD ("SIC " ++ v)

/-- Field set by the SIC block of `extract_comprehensive_industry_info`:
the raw code, when the `sic` key is present and truthy. -/
def stage_sic_code (d : EnhancedData) : Option String :=
  if truthy d.sic then d.sic else none

/-- Companion of `stage_sic_code`: the description stored alongside the
code. -/
def stage_sic_description (d : EnhancedData) : Option String :=
  match d.sic with
  | some v => if v ≠ "" then some (sic_description_of v) else none
  | none => none

/-- Truncation applied by the description block: descriptions longer than
300 characters are cut to their first 300 characters with `...` appended
(`desc[:300] + "..."`). -/
def truncate_description (desc : String) : String :=
  if 300 < desc.length then String.mk (desc.data.take 300) ++ "..." else desc

/-- Field set by the description block: the (possibly truncated) value of a
present `businessDescription` key. -/
def stage_business_description (d : EnhancedData) : Option String :=
  d.businessDescription.map truncate_description

/-- Field set by the Form D block: the signal's `industry_category`, when a
`form_d_info` key is present and its category is truthy. -/
def stage_form_d_category (d : EnhancedData) : Option String :=
  match d.form_d_info with
  | some fd => if truthy fd.industry_category then fd.industry_category else none
  | none => none

/-- Condition of the name-classification fallback:
`not any([sic_code, industry_category, business_description])` over the
values the three preceding blocks stored (Python truthiness, so a stored
empty string counts as absent). -/
def needs_name_fallback (d : EnhancedData) : Bool :=
  !(truthy (stage_sic_code d) || truthy (stage_form_d_category d) ||
    truthy (stage_business_description d))

/-- Embedding of `extract_comprehensive_industry_info`: company type from
the tickers, then the SIC block, the description block and the Form D block
(each guarded only by its own key), then the name-classification fallback
guarded by `needs_name_fallback`, which overwrites `industry_category`,
adds `confidence` and retags `source`. -/
def extract_comprehensive_industry_info (d : EnhancedData) (company_name : String) :
    IndustryInfo :=
  let base : IndustryInfo :=
    { sic_code := stage_sic_code d,
      sic_description := stage_sic_description d,
      business_description := stage_business_description d,
      industry_category := stage_form_d_category d,
      company_type := some (profile_company_type d.tickers),
      form_d_info := d.form_d_info,
      source := "submissions",
      confidence := none }
  if needs_name_fallback d then
    let nc := classify_industry_from_name company_name
    { base with
        industry_category := some nc.industry_category,
        confidence := some nc.confidence,
        source := "name_classification" }
  else base

/-- Maximal leading run of digits and commas, modelling the greedy group
`([0-9,]+)` of the offering-amount pattern. -/
def digitsCommas : List Char → List Char
  | [] => []
  | c :: cs => if c.isDigit || c = ',' then c :: digitsCommas cs else []

/-- Scan forward from just after the label, not crossing a newline (`.` in
the pattern does not match one), for a dollar sign directly followed by at
least one digit or comma; return that greedy digit/comma group. -/
def scanAmount : List Char → Option String
  | [] => none
  | c :: cs =>
    if c = '\n' then none
    else if c = '$' && (match cs with | d :: _ => d.isDigit || d = ',' | [] => false) then
      some (String.mk (digitsCommas cs))
    else scanAmount cs

/-- Leftmost-match search modelling
`re.search(r'Total Offering Amount.*?\$([0-9,]+)', content)`: the first
position carrying the literal label and, on the same line after it, a
dollar figure, yields that figure's digit/comma text. -/
def find_offering_amount_aux : List Char → Option String
  | [] => none
  | l@(_ :: cs) =>
    if List.isPrefixOf "Total Offering Amount".data l then
      match scanAmount (l.drop "Total Offering Amount".data.length) with
      | some g => some g
      | none => find_offering_amount_aux cs
    else find_offering_amount_aux cs

/-- Offering-amount extraction over the whole document text. -/
def find_offering_amount (content : String) : Option String :=
  find_offering_amount_aux content.data

/-- Embedding of the XML branch of `parse_form_d_filing`: ordered keyword
matching on the raw text (Technology, then Financial or Banking, then
Health or Medical) and the offering-amount extraction. -/
def parse_xml_content (content : String) (info : FormDInfo) : FormDInfo :=
  let cat :=
    if strContains "Technology" content then some "Technology"
    else if strContains "Financial" content || strContains "Banking" content then
      some "Financial Services"
    else if strContains "Health" content || strContains "Medical" content then
      some "Healthcare"
    else info.industry_category
  let amt :=
    match find_offering_amount content with
    | some a => some a
    | none => info.offering_amount
  { info with industry_category := cat, offering_amount := amt }

/-- The all-empty `industry_info` record `parse_form_d_filing` starts from
and returns on any error. -/
def form_d_info_init : FormDInfo :=
  { industry_category := none, business_description := none,
    revenue_range := none, offering_amount := none }

/-- The dash-stripped accession reference (`acc_clean` in the source,
`accession_number.replace('-', '')`); the source computes it and then uses
it in none of the candidate URLs. -/
def acc_clean (accession_number : String) : String :=
  String.mk (accession_number.data.filter (fun c => c ≠ '-'))

/-- The three candidate document URLs of `parse_form_d_filing`, in source
order; both XML variants and the legacy text variant embed the zero-stripped
CIK and the accession reference exactly as passed in. -/
def form_d_possible_urls (cik_no_zeros accession_number : String) : List String :=
  ["https://www.sec.gov/Archives/edgar/data/" ++ cik_no_zeros ++ "/" ++
     accession_number ++ "/xslFormDX01/primary_doc.xml",
   "https://www.sec.gov/Archives/edgar/data/" ++ cik_no_zeros ++ "/" ++
     accession_number ++ "/primary_doc.xml",
   "https://www.sec.gov/Archives/edgar/data/" ++ cik_no_zeros ++ "/" ++
     accession_number ++ ".txt"]

/-- Whether a request for this URL returns status 200 under the given fetch
oracle (`none` models a raised request exception). -/
def is_success (fetch : String → Option HttpResponse) (url : String) : Bool :=
  match fetch url with
  | some r => r.status = 200
  | none => false

/-- Embedding of the URL trial loop of `parse_form_d_filing`.  A raised
request or a non-200 status falls through to the next candidate; the first
200 response is consumed (XML parsing only when the URL ends in `.xml`) and
the loop breaks.  The second component records the URLs actually
requested. -/
def try_form_d_urls (fetch : String → Option HttpResponse) :
    List String → FormDInfo → FormDInfo × List String
  | [], info => (info, [])
  | url :: rest, info =>
    match fetch url with
    | none =>
      let r := try_form_d_urls fetch rest info
      (r.1, url :: r.2)
    | some resp =>
      if resp.status = 200 then
        (if strEndsWith url ".xml" then parse_xml_content resp.text info else info, [url])
      else
        let r := try_form_d_urls fetch rest info
        (r.1, url :: r.2)

/-- Embedding of `parse_form_d_filing`: strip the CIK's leading zeros via
`int`, build the three candidate URLs and run the trial loop.  A
non-numeric CIK models the `ValueError` of `int(cik)`, caught by the outer
handler, which returns the still-initial record. -/
def parse_form_d_filing (fetch : String → Option HttpResponse)
    (cik accession_number : String) : FormDInfo :=
  match strToNat? cik with
  | none => form_d_info_init
  | some n =>
    (try_form_d_urls fetch (form_d_possible_urls (toString n) accession_number)
      form_d_info_init).1

/-- The URLs `parse_form_d_filing` actually requests (instrumented view of
the same trial loop). -/
def form_d_requested_urls (fetch : String → Option HttpResponse)
    (cik accession_number : String) : List String :=
  match strToNat? cik with
  | none => []
  | some n =>
    (try_form_d_urls fetch (form_d_possible_urls (toString n) accession_number)
      form_d_info_init).2

/-- Embedding of `search_public_companies` over the directory oracle
(`none` models the failed `_make_request`; the empty directory is likewise
falsy in `if not companies_data`).  A directory entry matches when the
lowered query is a substring of the lowered title or ticker, or the lowered
title is a substring of the lowered query. -/
def search_public_companies (companies_data : Option (List DirEntry))
    (company_name : String) : List Candidate :=
  match companies_data with
  | none => []
  | some entries =>
    if entries = [] then []
    else
      let q := strLower company_name
      entries.filterMap (fun c =>
        if strContains q (strLower c.title) || strContains q (strLower c.ticker) ||
           strContains (strLower c.title) q then
          some { cik := zfill (toString c.cik_str) 10, name := c.title,
                 ticker := c.ticker, company_type := "public" }
        else none)

/-- Embedding of `search_by_cik_direct` over the submissions oracle, keyed
by the zero-padded CIK the request URL embeds. -/
def search_by_cik_direct (subs : String → Option SubmissionsData)
    (cik : String) : Option Candidate :=
  match subs (zfill cik 10) with
  | none => none
  | some sd =>
    some { cik := zfill cik 10,
           name := sd.name.getD "Unknown",
           ticker := if sd.tickers ≠ [] then sd.tickers.headD "" else "",
           company_type := profile_company_type sd.tickers }

/-- Scan of the recent filings for the first `D` entry with a truthy
accession number at the same index (an entry whose accession is absent or
empty does not break the loop). -/
def find_first_d_accession_aux (accs : List String) : List String → Nat → Option String
  | [], _ => none
  | f :: fs, i =>
    if f = "D" then
      match accs.get? i with
      | some a =>
        if a ≠ "" then some a else find_first_d_accession_aux accs fs (i + 1)
      | none => find_first_d_accession_aux accs fs (i + 1)
    else find_first_d_accession_aux accs fs (i + 1)

/-- First Form D accession reference of a filings object. -/
def find_first_d_accession (f : Filings) : Option String :=
  find_first_d_accession_aux f.accessionNumber f.form 0

/-- Embedding of `get_enhanced_submissions_data`: fetch the submissions for
the zero-padded CIK and, when the recent filings contain a Form D with an
accession reference, attach the parsed Form D signal. -/
def get_enhanced_submissions_data (subs : String → Option SubmissionsData)
    (fetch : String → Option HttpResponse) (cik : String) : Option EnhancedData :=
  match subs (zfill cik 10) with
  | none => none
  | some sd =>
    let fd :=
      match sd.filings with
      | some f =>
        match find_first_d_accession f with
        | some acc => some (parse_form_d_filing fetch cik acc)
        | none => none
      | none => none
    some { name := sd.name, tickers := sd.tickers, sic := sd.sic,
           businessDescription := sd.businessDescription,
           filings := sd.filings, form_d_info := fd }

/-- The combined candidate list of `comprehensive_company_search`: all name
matches, then (when a truthy CIK was supplied and resolved) the direct CIK
candidate appended at the end. -/
def combined_matches (companies_data : Option (List DirEntry))
    (subs : String → Option SubmissionsData) (company_name : String)
    (include_cik : Option String) : List Candidate :=
  let public_matches := search_public_companies companies_data company_name
  match include_cik with
  | some cik =>
    if cik ≠ "" then
      match search_by_cik_direct subs cik with
      | some c => public_matches ++ [c]
      | none => public_matches
    else public_matches
  | none => public_matches

/-- One aggregated result record, as assembled in the processing loop. -/
def build_agg_result (company_name : String) (m : Candidate) (ed : EnhancedData) :
    AggResult :=
  let ii := extract_comprehensive_industry_info ed company_name
  { cik := m.cik, name := m.name, ticker := m.ticker,
    company_type := ii.company_type.getD m.company_type,
    sic_code := ii.sic_code, sic_description := ii.sic_description,
    business_description := ii.business_description,
    industry_category := ii.industry_category,
    form_d_info := ii.form_d_info,
    data_source := ii.source,
    filing_count := (ed.filings.map (fun f => f.form.length)).getD 0 }

/-- Embedding of `comprehensive_company_search`: process the first five
combined candidates (`public_matches[:5]`), skipping any whose submissions
fetch fails. -/
def comprehensive_company_search (companies_data : Option (List DirEntry))
    (subs : String → Option SubmissionsData) (fetch : String → Option HttpResponse)
    (company_name : String) (include_cik : Option String) : List AggResult :=
  ((combined_matches companies_data subs company_name include_cik).take 5).filterMap
    (fun m =>
      match get_enhanced_submissions_data subs fetch m.cik with
      | none => none
      | some ed => some (build_agg_result company_name m ed))

/-! ## Helper lemmas about the classifier -/

theorem extract_sic_code_eq (d : EnhancedData) (name : String) :
    (extract_comprehensive_industry_info d name).sic_code = stage_sic_code d := by
  by_cases h : needs_name_fallback d <;>
    simp [extract_comprehensive_industry_info, h]

theorem extract_sic_description_eq (d : EnhancedData) (name : String) :
    (extract_comprehensive_industry_info d name).sic_description =
      stage_sic_description d := by
  by_cases h : needs_name_fallback d <;>
    simp [extract_comprehensive_industry_info, h]

theorem extract_business_description_eq (d : EnhancedData) (name : String) :
    (extract_comprehensive_industry_info d name).business_description =
      stage_business_description d := by
  by_cases h : needs_name_fallback d <;>
    simp [extract_comprehensive_industry_info, h]

theorem extract_form_d_info_eq (d : EnhancedData) (name : String) :
    (extract_comprehensive_industry_info d name).form_d_info = d.form_d_info := by
  by_cases h : needs_name_fallback d <;>
    simp [extract_comprehensive_industry_info, h]

theorem extract_company_type_eq (d : EnhancedData) (name : String) :
    (extract_comprehensive_industry_info d name).company_type =
      some (profile_company_type d.tickers) := by
  by_cases h : needs_name_fallback d <;>
    simp [extract_comprehensive_industry_info, h]

theorem extract_source_eq (d : EnhancedData) (name : String) :
    (extract_comprehensive_industry_info d name).source =
      (if needs_name_fallback d then "name_classification" else "submissions") := by
  by_cases h : needs_name_fallback d <;>
    simp [extract_comprehensive_industry_info, h]

theorem needs_name_fallback_iff (d : EnhancedData) :
    needs_name_fallback d = true ↔
      (truthy (stage_sic_code d) = false ∧ truthy (stage_form_d_category d) = false ∧
       truthy (stage_business_description d) = false) := by
  unfold needs_name_fallback
  simp [and_assoc]

/-! ## Claim theorems -/

/-- Claim C1 (counterexample): on a profile carrying both an industry code
and a free-text description, `extract_comprehensive_industry_info` applies
the SIC lookup AND stage 2's description capture, so the stages do not form
an ordered fallback chain in which each stage is consulted only if the
previous produced nothing. -/
theorem fallback_chain_cex :
    truthy (stage_sic_code
      { name := none, tickers := [], sic := some "7372",
        businessDescription := some "Makes software", filings := none,
        form_d_info := none }) = true
    ∧ (extract_comprehensive_industry_info
        { name := none, tickers := [], sic := some "7372",
          businessDescription := some "Makes software", filings := none,
          form_d_info := none } "Acme").sic_description =
        some "Prepackaged Software"
    ∧ (extract_comprehensive_industry_info
        { name := none, tickers := [], sic := some "7372",
          businessDescription := some "Makes software", filings := none,
          form_d_info := none } "Acme").business_description =
        some "Makes software" := by
  decide

/-- Claim C1 (amended): stages 1-3 of `extract_comprehensive_industry_info`
are each applied whenever their own precondition holds, independently of the
other stages; only stage 4 (name classification) is a fallback, fired
exactly when none of the stored `sic_code`, `industry_category` and
`business_description` values is truthy; and exactly one of the two
provenance tags is set, `name_classification` iff stage 4 fired and
`submissions` otherwise. -/
theorem stage_blocks_independent (d : EnhancedData) (name : String) :
    (extract_comprehensive_industry_info d name).sic_code = stage_sic_code d
    ∧ (extract_comprehensive_industry_info d name).business_description =
        stage_business_description d
    ∧ (extract_comprehensive_industry_info d name).form_d_info = d.form_d_info
    ∧ ((extract_comprehensive_industry_info d name).source = "submissions" ∨
       (extract_comprehensive_industry_info d name).source = "name_classification")
    ∧ ((extract_comprehensive_industry_info d name).source = "name_classification" ↔
        (truthy (stage_sic_code d) = false ∧ truthy (stage_form_d_category d) = false ∧
         truthy (stage_business_description d) = false)) := by
  refine ⟨extract_sic_code_eq d name, extract_business_description_eq d name,
    extract_form_d_info_eq d name, ?_, ?_⟩
  · rw [extract_source_eq]
    by_cases h : needs_name_fallback d <;> simp [h]
  · rw [extract_source_eq, ← needs_name_fallback_iff]
    by_cases h : needs_name_fallback d <;> simp [h]

/-- Claim C2 (counterexample): a 301-character business description is
stored with length 303, not 301 plus the length of the ellipsis marker
(which would be 304). -/
theorem truncation_length_cex :
    (String.mk (List.replicate 301 'a')).length = 301
    ∧ ((extract_comprehensive_industry_info
        { name := none, tickers := [], sic := none,
          businessDescription := some (String.mk (List.replicate 301 'a')),
          filings := none, form_d_info := none } "X").business_description.map
        String.length) = some 303
    ∧ (303 : Nat) ≠ 301 + ("..." : String).length := by
  decide

/-- Claim C2 (amended): for a business description longer than 300
characters the stored value is its first 300 characters followed by the
ellipsis marker, so its length is exactly 300 plus the length of the
ellipsis marker and it ends with the marker; a description of 300
characters or fewer is stored verbatim. -/
theorem truncation_amended (d : EnhancedData) (name desc : String)
    (h : d.businessDescription = some desc) :
    (300 < desc.length →
       (extract_comprehensive_industry_info d name).business_description =
           some (String.mk (desc.data.take 300) ++ "...")
         ∧ (String.mk (desc.data.take 300) ++ "...").length =
             300 + ("..." : String).length)
    ∧ (desc.length ≤ 300 →
       (extract_comprehensive_industry_info d name).business_description = some desc) := by
  rw [extract_business_description_eq]
  unfold stage_business_description
  rw [h]
  constructor
  · intro hlen
    constructor
    · simp [truncate_description, hlen]
    · show (String.mk (desc.data.take 300) ++ "...").data.length = _
      rw [String.data_append]
      simp only [List.length_append, List.length_take, List.length_cons,
        List.length_nil]
      have h1 : desc.data.length = desc.length := rfl
      have h2 : ("..." : String).length = 3 := rfl
      omega
  · intro hlen
    have : ¬ (300 < desc.length) := by omega
    simp [truncate_description, this]

/-- Claim C2 (witness for the amended theorem): evaluation at a concrete
301-character description. -/
theorem truncation_amended_witness :
    (extract_comprehensive_industry_info
        { name := none, tickers := [], sic := none,
          businessDescription := some (String.mk (List.replicate 301 'a')),
          filings := none, form_d_info := none } "X").business_description =
        some (String.mk ((String.mk (List.replicate 301 'a')).data.take 300) ++ "...")
    ∧ (String.mk ((String.mk (List.replicate 301 'a')).data.take 300) ++ "...").length =
        300 + ("..." : String).length :=
  (truncation_amended
    { name := none, tickers := [], sic := none,
      businessDescription := some (String.mk (List.replicate 301 'a')),
      filings := none, form_d_info := none } "X"
    (String.mk (List.replicate 301 'a')) rfl).1 (by simp [String.length])

/-- Claim C3 (confirmed): the name-keyword fallback fires iff the values
stored by stages 1-3 for `sic_code`, `industry_category` and
`business_description` are all absent (falsy); when at least one of them is
set, the fallback is suppressed and the provenance tag stays
`submissions`. -/
theorem name_fallback_iff (d : EnhancedData) (name : String) :
    ((extract_comprehensive_industry_info d name).source = "name_classification" ↔
       (truthy (stage_sic_code d) = false ∧ truthy (stage_form_d_category d) = false ∧
        truthy (stage_business_description d) = false))
    ∧ (truthy (stage_sic_code d) = true ∨ truthy (stage_form_d_category d) = true ∨
        truthy (stage_business_description d) = true →
       (extract_comprehensive_industry_info d name).source = "submissions") := by
  constructor
  · rw [extract_source_eq, ← needs_name_fallback_iff]
    by_cases h : needs_name_fallback d <;> simp [h]
  · intro hone
    rw [extract_source_eq]
    have : needs_name_fallback d = false := by
      unfold needs_name_fallback
      rcases hone with h | h | h <;> simp [h]
    simp [this]

/-- Claim C3 (witness): a profile with an industry code keeps the
`submissions` provenance tag. -/
theorem name_fallback_iff_witness :
    (extract_comprehensive_industry_info
      { name := none, tickers := [], sic := some "7372",
        businessDescription := none, filings := none, form_d_info := none }
      "Acme").source = "submissions" :=
  (name_fallback_iff
    { name := none, tickers := [], sic := some "7372",
      businessDescription := none, filings := none, form_d_info := none }
    "Acme").2 (Or.inl (by decide))

/-- Claim C4 (code bug): at CIK `0001518449` and accession reference
`0001213900-21-032315`, the identifier's leading zeros are stripped and the
stripped form appears in every candidate URL, but the dash-stripped
accession (`acc_clean`, computed in the source and then left unused) appears
in no candidate URL: every URL embeds the accession reference with its
separators intact. -/
theorem form_d_url_construction_eval :
    strToNat? "0001518449" = some 1518449
    ∧ toString (1518449 : Nat) = "1518449"
    ∧ (form_d_possible_urls (toString (1518449 : Nat)) "0001213900-21-032315").all
        (fun u => strContains "/1518449/" u) = true
    ∧ acc_clean "0001213900-21-032315" = "000121390021032315"
    ∧ (form_d_possible_urls (toString (1518449 : Nat)) "0001213900-21-032315").all
        (fun u => strContains "0001213900-21-032315" u) = true
    ∧ (form_d_possible_urls (toString (1518449 : Nat)) "0001213900-21-032315").all
        (fun u => !(strContains "000121390021032315" u)) = true := by
  decide

/-! ## Helper lemmas about the Form D trial loop -/

theorem is_success_elim (fetch : String → Option HttpResponse) (u : String)
    (h : is_success fetch u = true) :
    ∃ r, fetch u = some r ∧ r.status = 200 := by
  unfold is_success at h
  cases hf : fetch u with
  | none => rw [hf] at h; exact absurd h (by simp)
  | some r => rw [hf] at h; exact ⟨r, rfl, by simpa using h⟩

theorem try_urls_cons_fail (fetch : String → Option HttpResponse) (url : String)
    (rest : List String) (info : FormDInfo) (h : is_success fetch url = false) :
    try_form_d_urls fetch (url :: rest) info =
      ((try_form_d_urls fetch rest info).1,
       url :: (try_form_d_urls fetch rest info).2) := by
  unfold is_success at h
  cases hf : fetch url with
  | none => simp only [try_form_d_urls, hf]
  | some r =>
    rw [hf] at h
    simp only [decide_eq_false_iff_not] at h
    simp only [try_form_d_urls, hf]
    simp [h]

theorem try_urls_cons_succ (fetch : String → Option HttpResponse) (url : String)
    (rest : List String) (info : FormDInfo) (r : HttpResponse)
    (hf : fetch url = some r) (hs : r.status = 200) :
    try_form_d_urls fetch (url :: rest) info =
      (if strEndsWith url ".xml" then parse_xml_content r.text info else info,
       [url]) := by
  simp only [try_form_d_urls, hf]
  simp [hs]

theorem try_urls_no_success (fetch : String → Option HttpResponse)
    (urls : List String) (info : FormDInfo)
    (h : ∀ u ∈ urls, is_success fetch u = false) :
    (try_form_d_urls fetch urls info).1 = info := by
  induction urls with
  | nil => rfl
  | cons u rest ih =>
    rw [try_urls_cons_fail fetch u rest info (h u (List.mem_cons_self u rest))]
    exact ih (fun x hx => h x (List.mem_cons_of_mem u hx))

theorem strEndsWith_txt_not_xml (s : String) :
    strEndsWith (s ++ ".txt") ".xml" = false := by
  have h : (s ++ ".txt").data = s.data ++ ['.', 't', 'x', 't'] :=
    String.data_append s ".txt"
  unfold strEndsWith
  rw [h]
  show List.isSuffixOf ['.', 'x', 'm', 'l'] (s.data ++ ['.', 't', 'x', 't']) = false
  unfold List.isSuffixOf
  rw [List.reverse_append]
  simp [List.isPrefixOf]

/-- Claim C5 (confirmed): `parse_form_d_filing` builds the candidate list in
the fixed order structured-XML, plain-XML, legacy-text, and the trial loop
requests exactly the prefix up to and including the first URL answering
200: a success at the first URL means the second and third are never
requested, whatever the response content; a success at the second means the
third is never requested. -/
theorem candidate_trial_order (fetch : String → Option HttpResponse)
    (cik acc : String) (n : Nat) (h : strToNat? cik = some n) :
    form_d_possible_urls (toString n) acc =
      ["https://www.sec.gov/Archives/edgar/data/" ++ toString n ++ "/" ++ acc ++
         "/xslFormDX01/primary_doc.xml",
       "https://www.sec.gov/Archives/edgar/data/" ++ toString n ++ "/" ++ acc ++
         "/primary_doc.xml",
       "https://www.sec.gov/Archives/edgar/data/" ++ toString n ++ "/" ++ acc ++
         ".txt"]
    ∧ (is_success fetch ("https://www.sec.gov/Archives/edgar/data/" ++ toString n ++
          "/" ++ acc ++ "/xslFormDX01/primary_doc.xml") = true →
        form_d_requested_urls fetch cik acc =
          ["https://www.sec.gov/Archives/edgar/data/" ++ toString n ++ "/" ++ acc ++
             "/xslFormDX01/primary_doc.xml"])
    ∧ (is_success fetch ("https://www.sec.gov/Archives/edgar/data/" ++ toString n ++
          "/" ++ acc ++ "/xslFormDX01/primary_doc.xml") = false →
       is_success fetch ("https://www.sec.gov/Archives/edgar/data/" ++ toString n ++
          "/" ++ acc ++ "/primary_doc.xml") = true →
        form_d_requested_urls fetch cik acc =
          ["https://www.sec.gov/Archives/edgar/data/" ++ toString n ++ "/" ++ acc ++
             "/xslFormDX01/primary_doc.xml",
           "https://www.sec.gov/Archives/edgar/data/" ++ toString n ++ "/" ++ acc ++
             "/primary_doc.xml"])
    ∧ (is_success fetch ("https://www.sec.gov/Archives/edgar/data/" ++ toString n ++
          "/" ++ acc ++ "/xslFormDX01/primary_doc.xml") = false →
       is_success fetch ("https://www.sec.gov/Archives/edgar/data/" ++ toString n ++
          "/" ++ acc ++ "/primary_doc.xml") = false →
        form_d_requested_urls fetch cik acc =
          form_d_possible_urls (toString n) acc) := by
  refine ⟨rfl, ?_, ?_, ?_⟩
  · intro h1
    obtain ⟨r, hf, hs⟩ := is_success_elim fetch _ h1
    unfold form_d_requested_urls
    rw [h]
    show (try_form_d_urls fetch (_ :: _) form_d_info_init).2 = _
    rw [try_urls_cons_succ fetch _ _ form_d_info_init r hf hs]
  · intro h1 h2
    obtain ⟨r, hf, hs⟩ := is_success_elim fetch _ h2
    unfold form_d_requested_urls
    rw [h]
    show (try_form_d_urls fetch (_ :: _ :: _) form_d_info_init).2 = _
    rw [try_urls_cons_fail fetch _ _ form_d_info_init h1,
        try_urls_cons_succ fetch _ _ form_d_info_init r hf hs]
  · intro h1 h2
    unfold form_d_requested_urls
    rw [h]
    show (try_form_d_urls fetch (_ :: _ :: _) form_d_info_init).2 = _
    rw [try_urls_cons_fail fetch _ _ form_d_info_init h1,
        try_urls_cons_fail fetch _ _ form_d_info_init h2]
    cases hf : fetch ("https://www.sec.gov/Archives/edgar/data/" ++ toString n ++
        "/" ++ acc ++ ".txt") with
    | none => simp [try_form_d_urls, hf, form_d_possible_urls]
    | some r =>
      by_cases hs : r.status = 200
      · rw [try_urls_cons_succ fetch _ _ form_d_info_init r hf hs]
        simp [form_d_possible_urls]
      · rw [try_urls_cons_fail fetch _ _ form_d_info_init
          (by unfold is_success; rw [hf]; simpa using hs)]
        simp [try_form_d_urls, form_d_possible_urls]

/-- A fetch oracle under which only the legacy text variant answers, with a
body that carries both an industry keyword and a labelled offering amount. -/
def fetch_txt_only : String → Option HttpResponse := fun u =>
  if strEndsWith u ".txt" then
    some { status := 200, text := "Technology Total Offering Amount: $1,234,567" }
  else none

/-- Claim C5 (witness): with only the text variant answering, all three
URLs are requested, in order. -/
theorem candidate_trial_order_witness :
    form_d_requested_urls fetch_txt_only "0001518449" "0001213900-21-032315" =
      form_d_possible_urls (toString (1518449 : Nat)) "0001213900-21-032315" :=
  (candidate_trial_order fetch_txt_only "0001518449" "0001213900-21-032315"
    1518449 rfl).2.2.2 (by decide) (by decide)

/-- Claim C6 (confirmed): `parse_form_d_filing` is total by construction
(in this embedding it returns a record for every input), and each error
path yields the all-empty record: a non-numeric CIK (the `int(cik)`
`ValueError`, caught by the outer handler) yields the all-empty record, and
so does any run in which no candidate URL answers successfully (every
request raising or returning a non-200 status). -/
theorem parse_form_d_total_on_errors (fetch : String → Option HttpResponse)
    (cik acc : String) :
    (strToNat? cik = none → parse_form_d_filing fetch cik acc = form_d_info_init)
    ∧ ((∀ u, is_success fetch u = false) →
        parse_form_d_filing fetch cik acc = form_d_info_init) := by
  constructor
  · intro h
    unfold parse_form_d_filing
    rw [h]
  · intro h
    unfold parse_form_d_filing
    cases hc : strToNat? cik with
    | none => rfl
    | some n => exact try_urls_no_success fetch _ form_d_info_init (fun u _ => h u)

/-- Claim C6 (witness): evaluation on a non-numeric CIK and on an
all-failing fetch oracle. -/
theorem parse_form_d_total_on_errors_witness :
    parse_form_d_filing (fun _ => none) "not-a-cik" "0001213900-21-032315" =
      form_d_info_init
    ∧ parse_form_d_filing (fun _ => none) "0001518449" "0001213900-21-032315" =
      form_d_info_init :=
  ⟨(parse_form_d_total_on_errors (fun _ => none) "not-a-cik"
      "0001213900-21-032315").1 rfl,
   (parse_form_d_total_on_errors (fun _ => none) "0001518449"
      "0001213900-21-032315").2 (fun _ => rfl)⟩

/-- Claim C9 (confirmed): when the two XML variants fail and the legacy
`.txt` variant is the first success, `parse_form_d_filing` returns the
all-empty signal, whatever the text of the successful response: the
keyword matching and amount extraction run only for URLs ending in
`.xml`. -/
theorem txt_success_yields_empty (fetch : String → Option HttpResponse)
    (cik acc : String) (n : Nat) (h : strToNat? cik = some n)
    (h1 : is_success fetch ("https://www.sec.gov/Archives/edgar/data/" ++
        toString n ++ "/" ++ acc ++ "/xslFormDX01/primary_doc.xml") = false)
    (h2 : is_success fetch ("https://www.sec.gov/Archives/edgar/data/" ++
        toString n ++ "/" ++ acc ++ "/primary_doc.xml") = false)
    (h3 : is_success fetch ("https://www.sec.gov/Archives/edgar/data/" ++
        toString n ++ "/" ++ acc ++ ".txt") = true) :
    parse_form_d_filing fetch cik acc = form_d_info_init := by
  obtain ⟨r, hf, hs⟩ := is_success_elim fetch _ h3
  unfold parse_form_d_filing
  rw [h]
  show (try_form_d_urls fetch (_ :: _ :: _) form_d_info_init).1 = _
  rw [try_urls_cons_fail fetch _ _ form_d_info_init h1,
      try_urls_cons_fail fetch _ _ form_d_info_init h2,
      try_urls_cons_succ fetch _ _ form_d_info_init r hf hs]
  have := strEndsWith_txt_not_xml
    ("https://www.sec.gov/Archives/edgar/data/" ++ toString n ++ "/" ++ acc)
  simp [this]

/-- Claim C9 (witness): the text-only oracle's body contains the keyword
`Technology` and a labelled offering amount, yet the parsed signal is
all-empty. -/
theorem txt_success_yields_empty_witness :
    strContains "Technology" "Technology Total Offering Amount: $1,234,567" = true
    ∧ find_offering_amount "Technology Total Offering Amount: $1,234,567" =
        some "1,234,567"
    ∧ parse_form_d_filing fetch_txt_only "0001518449" "0001213900-21-032315" =
        form_d_info_init :=
  ⟨by decide, by decide,
   txt_success_yields_empty fetch_txt_only "0001518449" "0001213900-21-032315"
     1518449 rfl (by decide) (by decide) (by decide)⟩

/-- Claim C7 (confirmed): `search_public_companies` fails soft: a failed or
unparsable directory request (the `_make_request` result `None`, modelled
as the absent oracle value) and the falsy empty directory both yield the
empty candidate list; in this total embedding no exception can escape. -/
theorem search_public_fails_soft (name : String) :
    search_public_companies none name = []
    ∧ search_public_companies (some []) name = [] :=
  ⟨rfl, rfl⟩

/-- Claim C8 (confirmed): for every aggregated result, the recorded
`company_type` equals the type derived from the fetched profile's tickers
by the single rule `public` iff non-empty, and the classifier records that
same derived value, so Profile and IndustryClassification agree and the
candidate's hint is never what ends up overriding the profile-derived
value. -/
theorem company_type_agreement (companies_data : Option (List DirEntry))
    (subs : String → Option SubmissionsData) (fetch : String → Option HttpResponse)
    (name : String) (icik : Option String) (r : AggResult) (ed : EnhancedData)
    (hr : r ∈ comprehensive_company_search companies_data subs fetch name icik)
    (hed : get_enhanced_submissions_data subs fetch r.cik = some ed) :
    (extract_comprehensive_industry_info ed name).company_type =
        some (profile_company_type ed.tickers)
    ∧ r.company_type = profile_company_type ed.tickers := by
  refine ⟨extract_company_type_eq ed name, ?_⟩
  unfold comprehensive_company_search at hr
  rw [List.mem_filterMap] at hr
  obtain ⟨m, hm, hmr⟩ := hr
  cases hge : get_enhanced_submissions_data subs fetch m.cik with
  | none => rw [hge] at hmr; exact absurd hmr (by simp)
  | some ed' =>
    simp only [hge, Option.some.injEq] at hmr
    subst hmr
    have hcik : (build_agg_result name m ed').cik = m.cik := rfl
    rw [hcik, hge] at hed
    simp only [Option.some.injEq] at hed
    subst hed
    show (build_agg_result name m ed').company_type = _
    simp [build_agg_result, extract_company_type_eq]

/-- A one-entry directory used to exercise the aggregation pipeline. -/
def dir_testco : Option (List DirEntry) :=
  some [{ cik_str := 123, title := "Testco", ticker := "TST" }]

/-- A submissions oracle resolving only the zero-padded CIK `0000000123`. -/
def subs_testco : String → Option SubmissionsData := fun cik =>
  if cik = "0000000123" then
    some { name := some "Testco", tickers := ["TST"], sic := some "7372",
           businessDescription := none, filings := none }
  else none

/-- The aggregated result the pipeline produces for `dir_testco` and
`subs_testco` on the query `testco`. -/
def r_testco : AggResult :=
  { cik := "0000000123", name := "Testco", ticker := "TST",
    company_type := "public", sic_code := some "7372",
    sic_description := some "Prepackaged Software", business_description := none,
    industry_category := none, form_d_info := none,
    data_source := "submissions", filing_count := 0 }

/-- The enhanced profile behind `r_testco`. -/
def ed_testco : EnhancedData :=
  { name := some "Testco", tickers := ["TST"], sic := some "7372",
    businessDescription := none, filings := none, form_d_info := none }

/-- Claim C8 (witness): concrete agreement on the `Testco` scenario. -/
theorem company_type_agreement_witness :
    (extract_comprehensive_industry_info ed_testco "testco").company_type =
        some (profile_company_type ed_testco.tickers)
    ∧ r_testco.company_type = profile_company_type ed_testco.tickers :=
  company_type_agreement dir_testco subs_testco (fun _ => none) "testco" none
    r_testco ed_testco (by decide) (by decide)

/-- Claim C10 (confirmed): the direct-CIK candidate is appended after all
name-search matches and the 5-candidate cap is applied to the combined
list, so when the name search already returns at least five matches the
directly identified candidate is cut off by the cap: the processed
candidate prefix and the aggregated results are identical to a run without
the CIK. -/
theorem direct_cik_beyond_cap (companies_data : Option (List DirEntry))
    (subs : String → Option SubmissionsData) (fetch : String → Option HttpResponse)
    (name cik : String)
    (h : 5 ≤ (search_public_companies companies_data name).length) :
    (combined_matches companies_data subs name (some cik)).take 5 =
        (search_public_companies companies_data name).take 5
    ∧ comprehensive_company_search companies_data subs fetch name (some cik) =
        comprehensive_company_search companies_data subs fetch name none := by
  have hmain : (combined_matches companies_data subs name (some cik)).take 5 =
      (search_public_companies companies_data name).take 5 := by
    unfold combined_matches
    by_cases hc : cik = ""
    · simp [hc]
    · simp only [ne_eq, hc, not_false_eq_true, if_true]
      cases hd : search_by_cik_direct subs cik with
      | none => simp
      | some c => simp [List.take_append_of_le_length h]
  refine ⟨hmain, ?_⟩
  unfold comprehensive_company_search
  rw [hmain]
  rfl

/-- A five-entry directory whose every entry matches the query `a`. -/
def dir_five : Option (List DirEntry) :=
  some [{ cik_str := 1, title := "aa", ticker := "x" },
        { cik_str := 2, title := "aa", ticker := "x" },
        { cik_str := 3, title := "aa", ticker := "x" },
        { cik_str := 4, title := "aa", ticker := "x" },
        { cik_str := 5, title := "aa", ticker := "x" }]

/-- A submissions oracle resolving only the zero-padded CIK `0000000007`,
so the direct-CIK candidate actually gets appended in the witness run. -/
def subs_seven : String → Option SubmissionsData := fun cik =>
  if cik = "0000000007" then
    some { name := some "Hexify", tickers := [], sic := none,
           businessDescription := none, filings := none }
  else none

/-- Claim C10 (witness): with five name matches and a resolvable direct
CIK, the capped run with the CIK equals the run without it. -/
theorem direct_cik_beyond_cap_witness :
    (combined_matches dir_five subs_seven "a" (some "7")).take 5 =
        (search_public_companies dir_five "a").take 5
    ∧ comprehensive_company_search dir_five subs_seven (fun _ => none) "a"
        (some "7") =
      comprehensive_company_search dir_five subs_seven (fun _ => none) "a" none :=
  direct_cik_beyond_cap dir_five subs_seven (fun _ => none) "a" "7" (by decide)

end Crazier
